import Mathlib

/-!
Shallow embedding of the gammy batch account-provisioning script
(src/gammy.py, configured by src/gammy_settings.py).

The script manages Google accounts through the external GAM command-line
tool.  The GAM library function ProcessGAMCommand and the hashlib message
digest are external collaborators (imported libraries, not code of this
repository); they are modelled as parameters: a response function of type
Tool for the external tool, and a function of type String to String for the
hex digest.  Everything else (the dispatcher, the create/update/delete
handlers, the user probe findUser, the adapter GAM, getUserType,
lookupDivision, enableImap) is translated from src/gammy.py.

Python strings are modelled as Lean String; the helper functions
strContains, pyStrip, pyLines and pyStartsWith reproduce the Python
operations "in", str.strip(), str.split and str.startswith on the
character-list level so that all predicates are executable.
-/

namespace Gammy

/-- Contiguous-sublist test on character lists. -/
def listContains (pat : List Char) : List Char → Bool
  | [] => pat.isEmpty
  | x :: xs => pat.isPrefixOf (x :: xs) || listContains pat xs

/-- Python substring test: pat in s. -/
def strContains (s pat : String) : Bool :=
  listContains pat.data s.data

/-- Python str.startswith. -/
def pyStartsWith (s pat : String) : Bool :=
  List.isPrefixOf pat.data s.data

/-- The whitespace characters stripped by Python 2 str.strip(). -/
def isPySpace (c : Char) : Bool :=
  c = ' ' || c = '\t' || c = '\n' || c = '\r' || c = '\x0b' || c = '\x0c'

/-- Python str.strip(): remove leading and trailing whitespace. -/
def pyStrip (s : String) : String :=
  String.mk (((s.data.dropWhile isPySpace).reverse.dropWhile isPySpace).reverse)

/-- Split a character list at every occurrence of the separator character,
keeping empty pieces, as Python str.split(sep) does. -/
def splitCh (c : Char) : List Char → List (List Char)
  | [] => [[]]
  | x :: xs =>
    match splitCh c xs with
    | [] => [[]]
    | h :: t => if x = c then [] :: h :: t else (x :: h) :: t

/-- Python s.split with a newline separator, as used on the captured
probe output. -/
def pyLines (s : String) : List String :=
  (splitCh '\n' s.data).map String.mk

/-- Response of one external-tool invocation: the value returned by
ProcessGAMCommand (or the exception it raises), together with the text the
tool writes to the redirected standard output and standard error.  The
returned value only matters through its truthiness in the script, so it is
modelled as a Bool (true = truthy = failure). -/
structure ToolResp where
  result : Except String Bool
  out : String
  err : String

/-- The external tool, an opaque collaborator: a response for every
argument vector. -/
def Tool : Type := List String → ToolResp

/-- The process-wide state the script manipulates: the sys.stdout and
sys.stderr slots (opaque handles), the capture globals GERR and GOUT, the
probe global SUSPENDED, and a trace recording every argument vector handed
to the external tool. -/
structure SysState where
  stdoutH : Nat
  stderrH : Nat
  GERR : String
  GOUT : String
  SUSPENDED : Bool
  trace : List (List String)

/-- Initial process state: readConfig sets GERR and GOUT to these strings
(gammy.py lines 404-405). -/
def initState : SysState :=
  { stdoutH := 0, stderrH := 1, GERR := "standard error",
    GOUT := "standard output", SUSPENDED := false, trace := [] }

/-- The External Tool Adapter (gammy.py GAM, lines 463-492): saves the
current stream handles, redirects both streams to fresh fake buffers, runs
the command, and in the finally block restores the streams, publishes the
stripped captured text in GERR and GOUT, and returns the tool result
(re-raising any exception).  The trace records the issued command. -/
def GAM (tool : Tool) (command : List String) (st : SysState) :
    Except String Bool × SysState :=
  let current_stderr := st.stderrH
  let current_stdout := st.stdoutH
  let fake_stderr := st.stdoutH + st.stderrH + 1
  let fake_stdout := st.stdoutH + st.stderrH + 2
  let stRedirected : SysState :=
    { st with stderrH := fake_stderr, stdoutH := fake_stdout }
  let r := tool command
  let stFinal : SysState :=
    { stRedirected with
        stderrH := current_stderr,
        stdoutH := current_stdout,
        GERR := pyStrip r.err,
        GOUT := pyStrip r.out,
        trace := stRedirected.trace ++ [command] }
  (r.result, stFinal)

/-- One step of the suspension scan in findUser (gammy.py lines 451-456):
on a line containing "Suspended", a "False" occurrence sets the flag to
false and then a "True" occurrence sets it to true. -/
def suspStep (acc : Bool) (item : String) : Bool :=
  if strContains item "Suspended" then
    let acc1 := if strContains item "False" then false else acc
    if strContains item "True" then true else acc1
  else acc

/-- The whole scan over the captured output lines. -/
def suspScan (init : Bool) (lines : List String) : Bool :=
  lines.foldl suspStep init

/-- The probe argument vector built by findUser. -/
def infoCmd (username : String) : List String :=
  ["gam", "info", "user", username]

/-- The User State Prober (gammy.py findUser, lines 436-460): reset
SUSPENDED to false, issue the info query; a truthy result means the user
does not exist; otherwise scan the captured output for the suspension flag
and report the user as existing.  The query is not wrapped in try, so a
tool exception propagates. -/
def findUser (tool : Tool) (username : String) (st : SysState) :
    Except String Bool × SysState :=
  let st1 := { st with SUSPENDED := false }
  match GAM tool (infoCmd username) st1 with
  | (Except.error e, st2) => (Except.error e, st2)
  | (Except.ok result, st2) =>
    if result then
      (Except.ok false, st2)
    else
      (Except.ok true,
        { st2 with SUSPENDED := suspScan st2.SUSPENDED (pyLines st2.GOUT) })

/-- gammy.py getUserType (lines 425-433): STU iff the configured student
pattern occurs in the username. -/
def getUserType (stupattern username : String) : String :=
  if strContains username stupattern then "STU" else "EMP"

/-- The static department to division dictionary built by readConfig
(gammy.py lines 408-415). -/
def deptDivision : List (String × String) :=
  [("Admissions", "admin.university.edu"),
   ("Art", "academic.university.edu"),
   ("Cinema", "academic.university.edu"),
   ("Grounds And Roads", "admin.universityn.edu"),
   ("Theatre", "academic.university.edu"),
   ("Womens and Gender Studies", "academic.university.edu")]

/-- The keys of the static table. -/
def deptDivisionKeys : List String := deptDivision.map Prod.fst

/-- Association-list lookup with a default, the meaning of the Python
dict method get(key, default). -/
def dictGet (l : List (String × String)) (k d : String) : String :=
  match l with
  | [] => d
  | (k', v) :: t => if k = k' then v else dictGet t k d

/-- The Org-Unit Resolver (gammy.py lookupDivision, lines 495-502):
deptDivision.get(ou, '') as a total function. -/
def lookupDivision (ou : String) : String :=
  dictGet deptDivision ou ""

/-- The org-unit placement appended to mutating commands: the hardcoded
student path when the username matches the student pattern, otherwise a
slash followed by the resolved division. -/
def orgPlacement (stupattern username ou stuPath : String) : String :=
  if getUserType stupattern username = "STU" then stuPath
  else "/" ++ lookupDivision ou

/-- The create argument vector (gammy.py lines 229-236): the password
argument is the hex digest of the plaintext, tagged "sha"; the student
path here is "/students.university.edu". -/
def createCommand (sha1hex : String → String)
    (stupattern username givenName sn ou userPassword : String) :
    List String :=
  let hhex := sha1hex userPassword
  ["gam", "create", "user", username, "firstname", givenName,
   "lastname", sn, "password", hhex, "sha",
   "org", orgPlacement stupattern username ou "/students.university.edu"]

/-- The unsuspend argument vector of the create handler reactivation
branch (gammy.py lines 197-203); note its student path is
"/students.denison.edu", different from the create branch. -/
def unsuspendCommand (stupattern username ou : String) : List String :=
  ["gam", "update", "user", username, "suspended", "off",
   "org", orgPlacement stupattern username ou "/students.denison.edu"]

/-- The rename segment of the update command (gammy.py lines 302-304). -/
def updRenameSeg (username newusername givenName sn : String) :
    List String :=
  if username ≠ newusername then
    ["firstname", givenName, "lastname", sn, "username", newusername]
  else []

/-- The suspend segment of the update command (gammy.py lines 305-306):
present only for the exact string "True". -/
def updSuspSeg (loginDisabled : String) : List String :=
  if loginDisabled = "True" then ["suspended", "on"] else []

/-- The update argument vector (gammy.py lines 300-311), assembled in
source order: base, optional rename, optional suspend, org placement. -/
def updateCommand
    (stupattern username newusername loginDisabled givenName sn ou :
      String) : List String :=
  ["gam", "update", "user", username]
    ++ updRenameSeg username newusername givenName sn
    ++ updSuspSeg loginDisabled
    ++ ["org", orgPlacement stupattern username ou "/students.university.edu"]

/-- The delete argument vector (gammy.py line 360). -/
def deleteCommand (username : String) : List String :=
  ["gam", "delete", "user", username]

/-- The IMAP argument vector (gammy.py line 518). -/
def imapCommand (username : String) : List String :=
  ["gam", "user", username, "imap", "on"]

/-- First parameter with an empty value, in the order the model fixes for
the Python 2 dict iteration over locals() (which is unspecified by the
language; the claims settled here do not depend on the order). -/
def firstEmpty : List (String × String) → Option String
  | [] => none
  | (n, v) :: rest => if v = "" then some n else firstEmpty rest

/-- The missing-value result string built by the handlers. -/
def missingMsg (item : String) : String :=
  "ERROR: Missing an expected input value for " ++ item ++ " in input file."

/-- The IMAP Enabler (gammy.py enableImap, lines 505-540): probe again;
if absent, return; otherwise issue the imap command inside try, swallowing
both the exception and the failure result.  The probe itself is outside
try, so its exception propagates. -/
def enableImap (tool : Tool) (username : String) (st : SysState) :
    Except String Unit × SysState :=
  match findUser tool username st with
  | (Except.error e, st1) => (Except.error e, st1)
  | (Except.ok false, st1) => (Except.ok (), st1)
  | (Except.ok true, st1) =>
    match GAM tool (imapCommand username) st1 with
    | (Except.error _e, st2) => (Except.ok (), st2)
    | (Except.ok _result, st2) => (Except.ok (), st2)

/-- The Create handler (gammy.py create, lines 170-269).  Empty-parameter
check over locals(), then the existence probe; an existing suspended user
is reactivated by the unsuspend command (outside any try, so a tool
exception propagates); an existing active user is a hard error; otherwise
the create command is issued inside try, and on success enableImap runs
after the fixed sleep (the sleep has no observable effect in the model). -/
def create (tool : Tool) (sha1hex : String → String)
    (stupattern username givenName sn ou userPassword : String)
    (st : SysState) : Except String String × SysState :=
  match firstEmpty [("username", username), ("givenName", givenName),
                    ("sn", sn), ("ou", ou),
                    ("userPassword", userPassword)] with
  | some _item => (Except.ok (missingMsg _item), st)
  | none =>
    match findUser tool username st with
    | (Except.error e, st1) => (Except.error e, st1)
    | (Except.ok true, st1) =>
      let result := "ERROR: username already taken!"
      if st1.SUSPENDED then
        let command := unsuspendCommand stupattern username ou
        match GAM tool command st1 with
        | (Except.error e, st2) => (Except.error e, st2)
        | (Except.ok unsuspendresult, st2) =>
          if unsuspendresult then
            (Except.ok "ERROR: could not unsuspend GApps user.", st2)
          else
            (Except.ok "SUCCES: User unsuspended in GApps.", st2)
      else (Except.ok result, st1)
    | (Except.ok false, st1) =>
      let command :=
        createCommand sha1hex stupattern username givenName sn ou
          userPassword
      match GAM tool command st1 with
      | (Except.error _e, st2) =>
        (Except.ok "ERROR: could not create GApps user.", st2)
      | (Except.ok result, st2) =>
        if result then
          (Except.ok "ERROR: could not create GApps user.", st2)
        else
          match enableImap tool username st2 with
          | (Except.error e, st3) => (Except.error e, st3)
          | (Except.ok _u, st3) =>
            (Except.ok "SUCCESS: User added to GApps.", st3)

/-- The Update handler (gammy.py update, lines 272-336).  The fullName
parameter is received and checked for emptiness but otherwise unused, as
in the source. -/
def update (tool : Tool)
    (stupattern username newusername loginDisabled givenName fullName sn
      ou : String) (st : SysState) : Except String String × SysState :=
  match firstEmpty [("username", username), ("newusername", newusername),
                    ("loginDisabled", loginDisabled),
                    ("givenName", givenName), ("fullName", fullName),
                    ("sn", sn), ("ou", ou)] with
  | some _item => (Except.ok (missingMsg _item), st)
  | none =>
    match findUser tool username st with
    | (Except.error e, st1) => (Except.error e, st1)
    | (Except.ok false, st1) =>
      (Except.ok "ERROR: user could not be found in GApps!", st1)
    | (Except.ok true, st1) =>
      let command :=
        updateCommand stupattern username newusername loginDisabled
          givenName sn ou
      match GAM tool command st1 with
      | (Except.error _e, st2) =>
        (Except.ok "ERROR: Could not update GApps user.", st2)
      | (Except.ok result, st2) =>
        if result then
          (Except.ok "ERROR: could not update GApps user.", st2)
        else
          (Except.ok "SUCCESS: User updated in GApps.", st2)

/-- The Delete handler (gammy.py delete, lines 339-384). -/
def delete (tool : Tool) (username : String) (st : SysState) :
    Except String String × SysState :=
  if username = "" then
    (Except.ok (missingMsg "username"), st)
  else
    match findUser tool username st with
    | (Except.error e, st1) => (Except.error e, st1)
    | (Except.ok false, st1) =>
      (Except.ok "ERROR: user not found in GApps!", st1)
    | (Except.ok true, st1) =>
      match GAM tool (deleteCommand username) st1 with
      | (Except.error _e, st2) =>
        (Except.ok "ERROR: Could not delete GApps user.", st2)
      | (Except.ok result, st2) =>
        if result then
          (Except.ok "ERROR: could not delete GApps user.", st2)
        else
          (Except.ok "SUCCESS: User deleted from GApps.", st2)

/-- One action record of the input file (module docstring, gammy.py lines
26-40); all values are passed through str() by main, so every field is a
string here.  The UDCid field is present in the input but unused by the
processing logic. -/
structure ActionRecord where
  action : String
  username : String
  newusername : String
  loginDisabled : String
  givenName : String
  fullName : String
  sn : String
  primO : String
  userPassword : String

/-- The field names of an input record, from the module docstring. -/
def inputFields : List String :=
  ["action", "username", "newusername", "loginDisabled", "UDCid",
   "givenName", "fullName", "sn", "primO", "userPassword"]

/-- The Action Dispatcher: the body of the main loop (gammy.py lines
125-146), routing one record to its handler and producing the result
string written to the report row. -/
def processRecord (tool : Tool) (sha1hex : String → String)
    (stupattern : String) (row : ActionRecord) (st : SysState) :
    Except String String × SysState :=
  if row.action = "create" then
    create tool sha1hex stupattern row.username row.givenName row.sn
      row.primO row.userPassword st
  else if row.action = "update" then
    update tool stupattern row.username row.newusername row.loginDisabled
      row.givenName row.fullName row.sn row.primO st
  else if row.action = "delete" then
    delete tool row.username st
  else
    (Except.ok "ERROR: Unrecognized action.", st)

/-- The parameter list the selected handler checks for empty values,
paired with the record values it receives; the parameter names are the
local names of the Python handler. -/
def handlerParams (row : ActionRecord) : List (String × String) :=
  if row.action = "create" then
    [("username", row.username), ("givenName", row.givenName),
     ("sn", row.sn), ("ou", row.primO),
     ("userPassword", row.userPassword)]
  else if row.action = "update" then
    [("username", row.username), ("newusername", row.newusername),
     ("loginDisabled", row.loginDisabled), ("givenName", row.givenName),
     ("fullName", row.fullName), ("sn", row.sn), ("ou", row.primO)]
  else if row.action = "delete" then
    [("username", row.username)]
  else []

/-! ## Specification-side definitions

These follow the words of the specification and are compared with the
embedded code. -/

/-- The boolean value the specification reads off one line of probe
output: on a line containing the "Suspended" marker, a "True" occurrence
yields true and otherwise a "False" occurrence yields false; other lines
carry no value.  (On a line containing both markers the source gives
"True" the last word, which this definition mirrors.) -/
def lineBool (item : String) : Option Bool :=
  if strContains item "Suspended" then
    if strContains item "True" then some true
    else if strContains item "False" then some false
    else none
  else none

/-- The last boolean value seen while scanning the lines, false when none
is seen: the wording of the User State Prober specification. -/
def lastSuspSeen (lines : List String) : Bool :=
  (lines.filterMap lineBool).getLastD false

/-! ## Concrete fixtures

Specific tool doubles, a digest stand-in, records and states used to
evaluate the embedded handlers on closed inputs. -/

/-- A digest stand-in with the shape of a hex digest (the real message
digest is an external library; only its output string matters here). -/
def hashDemo : String → String := fun _ =>
  "3d4f2bf07dc1be38b20cd6e46949a1071f9d0e3d"

/-- A tool double whose every command returns a truthy (failing) result
with no output: probes report the user as absent and mutations fail. -/
def toolAllFail : Tool := fun _ =>
  ⟨Except.ok true, "", ""⟩

/-- A tool double for which the probe succeeds and reports an existing,
unsuspended account, and every other command succeeds. -/
def toolFoundActive : Tool := fun _ =>
  ⟨Except.ok false, "First Name: B\nAccount Suspended: False", ""⟩

/-- A tool double for which the probe on user bob succeeds and reports a
suspended account, and every other command succeeds. -/
def toolSuspProbe : Tool := fun cmd =>
  if cmd = infoCmd "bob" then
    ⟨Except.ok false, "First Name: B\nAccount Suspended: True", ""⟩
  else ⟨Except.ok false, "", ""⟩

/-- A tool double for which the probe on user ann_x fails (user absent)
and every other command succeeds. -/
def toolCreateOk : Tool := fun cmd =>
  if cmd = infoCmd "ann_x" then ⟨Except.ok true, "", ""⟩
  else ⟨Except.ok false, "", ""⟩

/-- A create record for an existing suspended user bob. -/
def recReactivate : ActionRecord :=
  { action := "create", username := "bob", newusername := "bob",
    loginDisabled := "False", givenName := "B", fullName := "B Bob",
    sn := "Bob", primO := "Art", userPassword := "pw" }

/-- A create record whose department field primO is empty. -/
def recNoPrimO : ActionRecord :=
  { action := "create", username := "joe", newusername := "joe",
    loginDisabled := "False", givenName := "J", fullName := "J Joe",
    sn := "Joe", primO := "", userPassword := "pw" }

/-- A create record whose password field is empty. -/
def recNoPassword : ActionRecord :=
  { action := "create", username := "joe", newusername := "joe",
    loginDisabled := "False", givenName := "J", fullName := "J Joe",
    sn := "Joe", primO := "Art", userPassword := "" }

/-! ## Helper lemmas -/

theorem GAM_eq (tool : Tool) (cmd : List String) (st : SysState) :
    GAM tool cmd st =
      ((tool cmd).result,
       { st with GERR := pyStrip (tool cmd).err,
                 GOUT := pyStrip (tool cmd).out,
                 trace := st.trace ++ [cmd] }) := rfl

theorem suspStep_eq (acc : Bool) (item : String) :
    suspStep acc item = (lineBool item).getD acc := by
  unfold suspStep lineBool
  by_cases h1 : strContains item "Suspended" <;>
    by_cases h2 : strContains item "True" <;>
      by_cases h3 : strContains item "False" <;>
        simp [h1, h2, h3]

theorem foldl_lineBool_getLastD (l : List String) (a : Bool) :
    l.foldl (fun acc it => (lineBool it).getD acc) a =
      (l.filterMap lineBool).getLastD a := by
  induction l generalizing a with
  | nil => rfl
  | cons x xs ih =>
    simp only [List.foldl_cons, List.filterMap_cons]
    cases h : lineBool x with
    | none => simp only [h, Option.getD_none, ih]
    | some b => simp only [h, Option.getD_some, ih, List.getLastD_cons]

theorem suspScan_eq_lastSuspSeen (l : List String) :
    suspScan false l = lastSuspSeen l := by
  unfold suspScan lastSuspSeen
  have hf : suspStep = fun acc it => (lineBool it).getD acc := by
    funext acc it
    exact suspStep_eq acc it
  rw [hf, foldl_lineBool_getLastD]

theorem findUser_found (tool : Tool) (u : String) (st : SysState)
    (h : (tool (infoCmd u)).result = Except.ok false) :
    findUser tool u st =
      (Except.ok true,
       { st with
           SUSPENDED :=
             suspScan false (pyLines (pyStrip (tool (infoCmd u)).out)),
           GERR := pyStrip (tool (infoCmd u)).err,
           GOUT := pyStrip (tool (infoCmd u)).out,
           trace := st.trace ++ [infoCmd u] }) := by
  simp [findUser, GAM_eq, h]

theorem findUser_absent (tool : Tool) (u : String) (st : SysState)
    (h : (tool (infoCmd u)).result = Except.ok true) :
    findUser tool u st =
      (Except.ok false,
       { st with
           SUSPENDED := false,
           GERR := pyStrip (tool (infoCmd u)).err,
           GOUT := pyStrip (tool (infoCmd u)).out,
           trace := st.trace ++ [infoCmd u] }) := by
  simp [findUser, GAM_eq, h]

theorem findUser_exc (tool : Tool) (u : String) (st : SysState)
    (e : String) (h : (tool (infoCmd u)).result = Except.error e) :
    findUser tool u st =
      (Except.error e,
       { st with
           SUSPENDED := false,
           GERR := pyStrip (tool (infoCmd u)).err,
           GOUT := pyStrip (tool (infoCmd u)).out,
           trace := st.trace ++ [infoCmd u] }) := by
  simp only [findUser, GAM_eq, h]

theorem lookupDivision_range (ou : String) :
    lookupDivision ou = "" ∨ lookupDivision ou = "admin.university.edu" ∨
      lookupDivision ou = "academic.university.edu" ∨
      lookupDivision ou = "admin.universityn.edu" := by
  unfold lookupDivision deptDivision
  simp only [dictGet]
  split_ifs <;> simp

theorem lookupDivision_ne_student (ou : String) :
    lookupDivision ou ≠ "students.university.edu" := by
  rcases lookupDivision_range ou with h | h | h | h <;> rw [h] <;> decide

theorem slash_append_inj (a b : String) (h : "/" ++ a = "/" ++ b) :
    a = b := by
  cases a with
  | mk la =>
    cases b with
    | mk lb =>
      have h2 : '/' :: la = '/' :: lb := congrArg String.data h
      simp only [List.cons.injEq, true_and] at h2
      exact congrArg String.mk h2

theorem orgPlacement_student_iff (pat u ou : String) :
    orgPlacement pat u ou "/students.university.edu" =
        "/students.university.edu" ↔
      strContains u pat = true := by
  unfold orgPlacement getUserType
  by_cases h : strContains u pat
  · simp [h]
  · simp only [h, Bool.false_eq_true, if_false, reduceIte]
    constructor
    · intro he
      exact absurd (slash_append_inj _ _ he) (lookupDivision_ne_student ou)
    · intro he
      exact absurd he (by simp [h])

theorem firstEmpty_of_all_ne (n1 n2 n3 n4 n5 v1 v2 v3 v4 v5 : String)
    (h1 : v1 ≠ "") (h2 : v2 ≠ "") (h3 : v3 ≠ "") (h4 : v4 ≠ "")
    (h5 : v5 ≠ "") :
    firstEmpty [(n1, v1), (n2, v2), (n3, v3), (n4, v4), (n5, v5)] =
      none := by
  simp [firstEmpty, h1, h2, h3, h4, h5]

theorem firstEmpty_of_all_ne7
    (n1 n2 n3 n4 n5 n6 n7 v1 v2 v3 v4 v5 v6 v7 : String)
    (h1 : v1 ≠ "") (h2 : v2 ≠ "") (h3 : v3 ≠ "") (h4 : v4 ≠ "")
    (h5 : v5 ≠ "") (h6 : v6 ≠ "") (h7 : v7 ≠ "") :
    firstEmpty [(n1, v1), (n2, v2), (n3, v3), (n4, v4), (n5, v5),
                (n6, v6), (n7, v7)] = none := by
  simp [firstEmpty, h1, h2, h3, h4, h5, h6, h7]

theorem firstEmpty_names (l : List (String × String))
    (h : ∃ p ∈ l, p.2 = "") :
    ∃ p ∈ l, p.2 = "" ∧ firstEmpty l = some p.1 := by
  induction l with
  | nil => simp at h
  | cons q t ih =>
    obtain ⟨n, v⟩ := q
    by_cases hv : v = ""
    · exact ⟨(n, v), List.mem_cons_self _ _, hv, by simp [firstEmpty, hv]⟩
    · obtain ⟨p, hp, hpe⟩ := h
      rcases List.mem_cons.mp hp with he | ht
      · exact absurd (by rw [he] at hpe; exact hpe) hv
      · obtain ⟨p', hp', he', hf'⟩ := ih ⟨p, ht, hpe⟩
        exact ⟨p', List.mem_cons_of_mem _ hp', he',
               by simp [firstEmpty, hv, hf']⟩

theorem lookupDivision_of_not_mem (ou : String)
    (h : ou ∉ deptDivisionKeys) : lookupDivision ou = "" := by
  have h1 : ¬ ou = "Admissions" := fun e => h (by rw [e]; decide)
  have h2 : ¬ ou = "Art" := fun e => h (by rw [e]; decide)
  have h3 : ¬ ou = "Cinema" := fun e => h (by rw [e]; decide)
  have h4 : ¬ ou = "Grounds And Roads" := fun e => h (by rw [e]; decide)
  have h5 : ¬ ou = "Theatre" := fun e => h (by rw [e]; decide)
  have h6 : ¬ ou = "Womens and Gender Studies" := fun e =>
    h (by rw [e]; decide)
  simp [lookupDivision, deptDivision, dictGet, h1, h2, h3, h4, h5, h6]

/-! ## Claim theorems -/

/-- C10: on every invocation of the External Tool Adapter, whatever the
tool does (return a result or raise: the result component ranges over
both), the standard-output and standard-error handles of the final state
equal their pre-invocation values, the capture globals GOUT and GERR hold
the text captured from this invocation stripped of surrounding
whitespace, and the adapter passes the tool outcome (or exception)
through. -/
theorem GAM_restores_streams_and_captures
    (tool : Tool) (cmd : List String) (st : SysState) :
    (GAM tool cmd st).2.stdoutH = st.stdoutH ∧
    (GAM tool cmd st).2.stderrH = st.stderrH ∧
    (GAM tool cmd st).2.GOUT = pyStrip (tool cmd).out ∧
    (GAM tool cmd st).2.GERR = pyStrip (tool cmd).err ∧
    (GAM tool cmd st).1 = (tool cmd).result :=
  ⟨rfl, rfl, rfl, rfl, rfl⟩

/-- C9: the User State Prober ignores the incoming suspension flag (it is
reset to false before the probe is issued); if the probe command fails,
the flag is false and the user is reported absent; if the probe raises,
the flag is false and the exception propagates; if the probe succeeds,
the flag equals the last boolean value seen while scanning the captured
output line-by-line for Suspended-marker lines. -/
theorem findUser_reset_and_last_seen (tool : Tool) (u : String)
    (st : SysState) (b : Bool) :
    findUser tool u { st with SUSPENDED := b } = findUser tool u st ∧
    ((tool (infoCmd u)).result = Except.ok true →
      (findUser tool u st).1 = Except.ok false ∧
      (findUser tool u st).2.SUSPENDED = false) ∧
    (∀ e, (tool (infoCmd u)).result = Except.error e →
      (findUser tool u st).1 = Except.error e ∧
      (findUser tool u st).2.SUSPENDED = false) ∧
    ((tool (infoCmd u)).result = Except.ok false →
      (findUser tool u st).1 = Except.ok true ∧
      (findUser tool u st).2.SUSPENDED =
        lastSuspSeen (pyLines (pyStrip (tool (infoCmd u)).out))) := by
  refine ⟨rfl, ?_, ?_, ?_⟩
  · intro h
    rw [findUser_absent tool u st h]
    exact ⟨rfl, rfl⟩
  · intro e h
    rw [findUser_exc tool u st e h]
    exact ⟨rfl, rfl⟩
  · intro h
    rw [findUser_found tool u st h]
    exact ⟨rfl, suspScan_eq_lastSuspSeen _⟩

/-- C9 witness: a concrete probe whose output marks the account
suspended; the prober ignores an incoming true flag and reads true off
the last Suspended line. -/
def toolProbeSusp : Tool := fun _ =>
  ⟨Except.ok false, "First Name: A\nAccount Suspended: True\nLast", ""⟩

/-- C9 witness. -/
theorem findUser_reset_and_last_seen_witness :
    findUser toolProbeSusp "bob" { initState with SUSPENDED := true } =
      findUser toolProbeSusp "bob" initState ∧
    (findUser toolProbeSusp "bob" initState).1 = Except.ok true ∧
    (findUser toolProbeSusp "bob" initState).2.SUSPENDED = true := by
  have H := findUser_reset_and_last_seen toolProbeSusp "bob" initState true
  have H4 := H.2.2.2 rfl
  exact ⟨H.1, H4.1, by rw [H4.2]; rfl⟩

/-- C8: a department code absent from the static table resolves to the
empty string (the resolver is a total function, so no error is possible),
and for a non-student username the create and update commands receive the
placement slash followed by that empty division, that is the bare
slash. -/
theorem lookupDivision_unmapped_empty (sha1hex : String → String)
    (pat u nu ld g s pw ou : String)
    (h : ou ∉ deptDivisionKeys) :
    lookupDivision ou = "" ∧
    (strContains u pat = false →
      createCommand sha1hex pat u g s ou pw =
        ["gam", "create", "user", u, "firstname", g, "lastname", s,
         "password", sha1hex pw, "sha", "org", "/" ++ lookupDivision ou] ∧
      updateCommand pat u nu ld g s ou =
        ["gam", "update", "user", u] ++ updRenameSeg u nu g s ++
          updSuspSeg ld ++ ["org", "/" ++ lookupDivision ou] ∧
      "/" ++ lookupDivision ou = "/") := by
  have he := lookupDivision_of_not_mem ou h
  refine ⟨he, fun hc => ⟨?_, ?_, ?_⟩⟩
  · simp [createCommand, orgPlacement, getUserType, hc]
  · simp [updateCommand, orgPlacement, getUserType, hc]
  · rw [he]
    decide

/-- C8 witness: the department Biology of the sample input record is not
in the table. -/
theorem lookupDivision_unmapped_empty_witness :
    "Biology" ∉ deptDivisionKeys ∧
    lookupDivision "Biology" = "" ∧
    createCommand hashDemo "_" "joe" "J" "Joe" "Biology" "pw" =
      ["gam", "create", "user", "joe", "firstname", "J", "lastname",
       "Joe", "password", hashDemo "pw", "sha", "org", "/"] ∧
    updateCommand "_" "joe" "joe" "False" "J" "Joe" "Biology" =
      ["gam", "update", "user", "joe", "org", "/"] := by
  have hm : "Biology" ∉ deptDivisionKeys := by decide
  have H := lookupDivision_unmapped_empty hashDemo "_" "joe" "joe"
    "False" "J" "Joe" "pw" "Biology" hm
  have H2 := H.2 (by decide)
  refine ⟨hm, H.1, ?_, ?_⟩
  · rw [H2.1, H.1]
    decide
  · rw [H2.2.1, H.1]
    decide

/-- C3: for a create record with non-empty fields, when the probe
succeeds (the user exists) and the scanned suspension flag is false, the
handler returns exactly "ERROR: username already taken!" and the only
command issued is the read-only probe: the trace grows by the info query
alone, so no mutating create, update or unsuspend command is issued. -/
theorem create_taken_when_active (tool : Tool)
    (sha1hex : String → String) (pat u g s ou pw : String)
    (st : SysState) (hu : u ≠ "") (hg : g ≠ "") (hs : s ≠ "")
    (ho : ou ≠ "") (hp : pw ≠ "")
    (hres : (tool (infoCmd u)).result = Except.ok false)
    (hsusp :
      suspScan false (pyLines (pyStrip (tool (infoCmd u)).out)) = false) :
    (create tool sha1hex pat u g s ou pw st).1 =
      Except.ok "ERROR: username already taken!" ∧
    (create tool sha1hex pat u g s ou pw st).2.trace =
      st.trace ++ [infoCmd u] := by
  unfold create
  rw [firstEmpty_of_all_ne _ _ _ _ _ _ _ _ _ _ hu hg hs ho hp,
      findUser_found tool u st hres]
  simp [hsusp]

/-- C3 witness. -/
theorem create_taken_when_active_witness :
    (create toolFoundActive hashDemo "_" "bob" "B" "Bob" "Art" "pw"
        initState).1 =
      Except.ok "ERROR: username already taken!" ∧
    (create toolFoundActive hashDemo "_" "bob" "B" "Bob" "Art" "pw"
        initState).2.trace = [infoCmd "bob"] := by
  have H := create_taken_when_active toolFoundActive hashDemo "_" "bob"
    "B" "Bob" "Art" "pw" initState (by decide) (by decide) (by decide)
    (by decide) (by decide) rfl (by decide)
  exact ⟨H.1, by rw [H.2]; rfl⟩

/-- C6: for an update record with non-empty fields whose user exists, the
issued command is the update command, whose suspend segment is the pair
suspended on exactly when loginDisabled is the exact string "True"; any
other value, other casings included, leaves the segment empty. -/
theorem update_suspend_iff_exact (tool : Tool)
    (pat u nu ld g f s ou : String) (st : SysState)
    (hu : u ≠ "") (hnu : nu ≠ "") (hld : ld ≠ "") (hg : g ≠ "")
    (hf : f ≠ "") (hs : s ≠ "") (ho : ou ≠ "")
    (hres : (tool (infoCmd u)).result = Except.ok false) :
    (update tool pat u nu ld g f s ou st).2.trace =
      st.trace ++ [infoCmd u, updateCommand pat u nu ld g s ou] ∧
    (updSuspSeg ld = ["suspended", "on"] ↔ ld = "True") ∧
    (ld ≠ "True" → updSuspSeg ld = []) ∧
    updateCommand pat u nu ld g s ou =
      ["gam", "update", "user", u] ++ updRenameSeg u nu g s ++
        updSuspSeg ld ++
        ["org", orgPlacement pat u ou "/students.university.edu"] := by
  refine ⟨?_, ?_, ?_, rfl⟩
  · unfold update
    rw [firstEmpty_of_all_ne7 _ _ _ _ _ _ _ _ _ _ _ _ _ _ hu hnu hld hg
          hf hs ho,
        findUser_found tool u st hres]
    cases hr : (tool (updateCommand pat u nu ld g s ou)).result with
    | error e => simp [GAM_eq, hr]
    | ok b => cases b <;> simp [GAM_eq, hr]
  · unfold updSuspSeg
    by_cases hl : ld = "True" <;> simp [hl]
  · intro hl
    simp [updSuspSeg, hl]

/-- C6 witness: loginDisabled with the value "False" produces no suspend
segment. -/
theorem update_suspend_iff_exact_witness :
    (update toolFoundActive "_" "joe" "joe2" "False" "J" "JF" "Joe"
        "Art" initState).2.trace =
      [infoCmd "joe", updateCommand "_" "joe" "joe2" "False" "J" "Joe"
        "Art"] ∧
    (updSuspSeg "False" = ["suspended", "on"] ↔ "False" = "True") ∧
    updSuspSeg "False" = [] := by
  have H := update_suspend_iff_exact toolFoundActive "_" "joe" "joe2"
    "False" "J" "JF" "Joe" "Art" initState (by decide) (by decide)
    (by decide) (by decide) (by decide) (by decide) (by decide) rfl
  exact ⟨by rw [H.1]; rfl, H.2.1, H.2.2.1 (by decide)⟩

/-- C7: for an update record with non-empty fields whose user exists and
whose newusername equals username, the issued update command has an empty
rename segment: it consists of the base, the optional suspend segment and
the org placement only, with no firstname, lastname or new-username
arguments. -/
theorem update_no_rename_when_unchanged (tool : Tool)
    (pat u ld g f s ou : String) (st : SysState)
    (hu : u ≠ "") (hld : ld ≠ "") (hg : g ≠ "") (hf : f ≠ "")
    (hs : s ≠ "") (ho : ou ≠ "")
    (hres : (tool (infoCmd u)).result = Except.ok false) :
    (update tool pat u u ld g f s ou st).2.trace =
      st.trace ++ [infoCmd u, updateCommand pat u u ld g s ou] ∧
    updRenameSeg u u g s = [] ∧
    updateCommand pat u u ld g s ou =
      ["gam", "update", "user", u] ++ updSuspSeg ld ++
        ["org", orgPlacement pat u ou "/students.university.edu"] := by
  refine ⟨?_, by simp [updRenameSeg], by simp [updateCommand, updRenameSeg]⟩
  unfold update
  rw [firstEmpty_of_all_ne7 _ _ _ _ _ _ _ _ _ _ _ _ _ _ hu hu hld hg hf
        hs ho,
      findUser_found tool u st hres]
  cases hr : (tool (updateCommand pat u u ld g s ou)).result with
  | error e => simp [GAM_eq, hr]
  | ok b => cases b <;> simp [GAM_eq, hr]

/-- C7 witness. -/
theorem update_no_rename_when_unchanged_witness :
    (update toolFoundActive "_" "joe" "joe" "False" "J" "JF" "Joe" "Art"
        initState).2.trace =
      [infoCmd "joe", updateCommand "_" "joe" "joe" "False" "J" "Joe"
        "Art"] ∧
    updRenameSeg "joe" "joe" "J" "Joe" = [] ∧
    updateCommand "_" "joe" "joe" "False" "J" "Joe" "Art" =
      ["gam", "update", "user", "joe", "org",
       "/academic.university.edu"] := by
  have H := update_no_rename_when_unchanged toolFoundActive "_" "joe"
    "False" "J" "JF" "Joe" "Art" initState (by decide) (by decide)
    (by decide) (by decide) (by decide) (by decide) rfl
  exact ⟨by rw [H.1]; rfl, H.2.1, by rw [H.2.2]; decide⟩

/-- C4: for a valid create record whose user does not exist and whose
create command succeeds, the handler result is the success string (which
carries the "SUCCESS:" prefix), the create command is among the issued
commands, and its org argument is the hardcoded student path exactly when
the student pattern occurs in the username, the path resolved from the
department code otherwise. -/
theorem create_new_user_success (tool : Tool)
    (sha1hex : String → String) (pat u g s ou pw : String)
    (st : SysState) (hu : u ≠ "") (hg : g ≠ "") (hs : s ≠ "")
    (ho : ou ≠ "") (hp : pw ≠ "")
    (habs : (tool (infoCmd u)).result = Except.ok true)
    (hcr : (tool (createCommand sha1hex pat u g s ou pw)).result =
      Except.ok false) :
    (create tool sha1hex pat u g s ou pw st).1 =
      Except.ok "SUCCESS: User added to GApps." ∧
    pyStartsWith "SUCCESS: User added to GApps." "SUCCESS:" = true ∧
    createCommand sha1hex pat u g s ou pw ∈
      (create tool sha1hex pat u g s ou pw st).2.trace ∧
    createCommand sha1hex pat u g s ou pw =
      ["gam", "create", "user", u, "firstname", g, "lastname", s,
       "password", sha1hex pw, "sha", "org",
       orgPlacement pat u ou "/students.university.edu"] ∧
    (orgPlacement pat u ou "/students.university.edu" =
        "/students.university.edu" ↔ strContains u pat = true) ∧
    (strContains u pat = false →
      orgPlacement pat u ou "/students.university.edu" =
        "/" ++ lookupDivision ou) := by
  refine ⟨?_, by decide, ?_, rfl, orgPlacement_student_iff pat u ou,
          fun hc => by simp [orgPlacement, getUserType, hc]⟩
  · unfold create
    rw [firstEmpty_of_all_ne _ _ _ _ _ _ _ _ _ _ hu hg hs ho hp,
        findUser_absent tool u st habs]
    simp [GAM_eq, hcr, enableImap, findUser, habs]
  · unfold create
    rw [firstEmpty_of_all_ne _ _ _ _ _ _ _ _ _ _ hu hg hs ho hp,
        findUser_absent tool u st habs]
    simp [GAM_eq, hcr, enableImap, findUser, habs]

/-- C4 witness: a student-pattern username is placed under the student
path and the result carries the success prefix. -/
theorem create_new_user_success_witness :
    (create toolCreateOk hashDemo "_" "ann_x" "A" "N" "Art" "pw"
        initState).1 = Except.ok "SUCCESS: User added to GApps." ∧
    createCommand hashDemo "_" "ann_x" "A" "N" "Art" "pw" ∈
      (create toolCreateOk hashDemo "_" "ann_x" "A" "N" "Art" "pw"
        initState).2.trace ∧
    orgPlacement "_" "ann_x" "Art" "/students.university.edu" =
      "/students.university.edu" ∧
    strContains "ann_x" "_" = true := by
  have H := create_new_user_success toolCreateOk hashDemo "_" "ann_x"
    "A" "N" "Art" "pw" initState (by decide) (by decide) (by decide)
    (by decide) (by decide) rfl rfl
  exact ⟨H.1, H.2.2.1, H.2.2.2.2.1.mpr (by decide), by decide⟩

/-- C5 counterexample: when the plaintext password happens to equal the
username, the issued create command does contain the plaintext, so the
claim that the argument list never contains the plaintext password fails
at this input. -/
theorem create_plaintext_can_leak :
    createCommand hashDemo "_" "pw0" "G" "S" "Art" "pw0" ∈
      (create toolAllFail hashDemo "_" "pw0" "G" "S" "Art" "pw0"
        initState).2.trace ∧
    "pw0" ∈ createCommand hashDemo "_" "pw0" "G" "S" "Art" "pw0" := by
  have ht : (create toolAllFail hashDemo "_" "pw0" "G" "S" "Art" "pw0"
      initState).2.trace =
      [infoCmd "pw0", createCommand hashDemo "_" "pw0" "G" "S" "Art"
        "pw0"] := rfl
  constructor
  · rw [ht]
    simp
  · decide

/-- C5 (amended): for a create record whose user does not exist, the
issued create command carries the hex digest of the plaintext as the
password argument (position 9) immediately tagged "sha" (position 10),
and the plaintext appears nowhere in the argument list unless it
coincides with another transmitted value (the username, the names, the
digest itself, the org placement, or a fixed literal). -/
theorem create_sends_hash_not_plaintext (tool : Tool)
    (sha1hex : String → String) (pat u g s ou pw : String)
    (st : SysState) (hu : u ≠ "") (hg : g ≠ "") (hs : s ≠ "")
    (ho : ou ≠ "") (hp : pw ≠ "")
    (habs : (tool (infoCmd u)).result = Except.ok true) :
    createCommand sha1hex pat u g s ou pw ∈
      (create tool sha1hex pat u g s ou pw st).2.trace ∧
    (createCommand sha1hex pat u g s ou pw)[9]? = some (sha1hex pw) ∧
    (createCommand sha1hex pat u g s ou pw)[10]? = some "sha" ∧
    (pw ≠ u → pw ≠ g → pw ≠ s → pw ≠ sha1hex pw →
      pw ≠ orgPlacement pat u ou "/students.university.edu" →
      pw ∉ (["gam", "create", "user", "firstname", "lastname",
             "password", "sha", "org"] : List String) →
      pw ∉ createCommand sha1hex pat u g s ou pw) := by
  refine ⟨?_, rfl, rfl, ?_⟩
  · unfold create
    rw [firstEmpty_of_all_ne _ _ _ _ _ _ _ _ _ _ hu hg hs ho hp,
        findUser_absent tool u st habs]
    cases hr : (tool (createCommand sha1hex pat u g s ou pw)).result with
    | error e => simp [GAM_eq, hr]
    | ok b =>
      cases b
      · simp [GAM_eq, hr, enableImap, findUser, habs]
      · simp [GAM_eq, hr]
  · intro h1 h2 h3 h4 h5 h6
    simp only [List.mem_cons, List.not_mem_nil, or_false, not_or] at h6
    obtain ⟨g1, g2, g3, g4, g5, g6, g7, g8⟩ := h6
    simp [createCommand, h1, h2, h3, h4, h5, g1, g2, g3, g4, g5, g6,
          g7, g8]

/-- C5 witness for the amended claim: a password distinct from every
other transmitted value reaches the tool only as its digest. -/
theorem create_sends_hash_not_plaintext_witness :
    createCommand hashDemo "_" "joe" "J" "Joe" "Art" "zz9" ∈
      (create toolAllFail hashDemo "_" "joe" "J" "Joe" "Art" "zz9"
        initState).2.trace ∧
    (createCommand hashDemo "_" "joe" "J" "Joe" "Art" "zz9")[9]? =
      some (hashDemo "zz9") ∧
    "zz9" ∉ createCommand hashDemo "_" "joe" "J" "Joe" "Art" "zz9" := by
  have H := create_sends_hash_not_plaintext toolAllFail hashDemo "_"
    "joe" "J" "Joe" "Art" "zz9" initState (by decide) (by decide)
    (by decide) (by decide) (by decide) rfl
  exact ⟨H.1, H.2.1,
    H.2.2.2 (by decide) (by decide) (by decide) (by decide) (by decide)
      (by decide)⟩

/-- C2 counterexample: a create record whose department field primO is
empty is reported under the handler parameter name ou, which is not a
field of the input file, so the result does not name the missing
input-file field. -/
theorem missing_primO_reported_as_ou :
    processRecord toolAllFail hashDemo "_" recNoPrimO initState =
      (Except.ok (missingMsg "ou"), initState) ∧
    missingMsg "ou" ≠ missingMsg "primO" ∧
    "ou" ∉ inputFields ∧ "primO" ∈ inputFields := by
  exact ⟨rfl, by decide, by decide, by decide⟩

/-- C2 (amended): a record with an empty required field never reaches
the external tool (the state, its trace included, is unchanged) and the
result names the empty field by the handler parameter name (these names
coincide with the input-file fields except that primO is reported as
ou); in particular a create record whose only empty field is
userPassword yields exactly the userPassword message. -/
theorem missing_field_aborts (tool : Tool) (sha1hex : String → String)
    (pat : String) (row : ActionRecord) (st : SysState)
    (hact : row.action = "create" ∨ row.action = "update" ∨
      row.action = "delete")
    (hemp : ∃ p ∈ handlerParams row, p.2 = "") :
    (∃ p ∈ handlerParams row, p.2 = "" ∧
      processRecord tool sha1hex pat row st =
        (Except.ok (missingMsg p.1), st)) ∧
    (row.action = "create" → row.userPassword = "" →
      row.username ≠ "" → row.givenName ≠ "" → row.sn ≠ "" →
      row.primO ≠ "" →
      processRecord tool sha1hex pat row st =
        (Except.ok (missingMsg "userPassword"), st)) := by
  constructor
  · rcases hact with ha | ha | ha
    · have hl : handlerParams row =
          [("username", row.username), ("givenName", row.givenName),
           ("sn", row.sn), ("ou", row.primO),
           ("userPassword", row.userPassword)] := by
        simp [handlerParams, ha]
      rw [hl] at hemp
      obtain ⟨p, hmem, hpe, hf⟩ := firstEmpty_names _ hemp
      refine ⟨p, by rw [hl]; exact hmem, hpe, ?_⟩
      simp only [processRecord, ha, reduceIte]
      unfold create
      rw [hf]
    · have hl : handlerParams row =
          [("username", row.username),
           ("newusername", row.newusername),
           ("loginDisabled", row.loginDisabled),
           ("givenName", row.givenName), ("fullName", row.fullName),
           ("sn", row.sn), ("ou", row.primO)] := by
        simp [handlerParams, ha]
      rw [hl] at hemp
      obtain ⟨p, hmem, hpe, hf⟩ := firstEmpty_names _ hemp
      refine ⟨p, by rw [hl]; exact hmem, hpe, ?_⟩
      have hpr : processRecord tool sha1hex pat row st =
          update tool pat row.username row.newusername
            row.loginDisabled row.givenName row.fullName row.sn
            row.primO st := by
        simp [processRecord, ha]
      rw [hpr]
      unfold update
      rw [hf]
    · have hl : handlerParams row = [("username", row.username)] := by
        simp [handlerParams, ha]
      rw [hl] at hemp
      obtain ⟨p, hmem, hpe⟩ := hemp
      rw [List.mem_singleton] at hmem
      subst hmem
      have hpe' : row.username = "" := hpe
      refine ⟨("username", row.username), by rw [hl]; simp, hpe, ?_⟩
      have hpr : processRecord tool sha1hex pat row st =
          delete tool row.username st := by
        simp [processRecord, ha]
      rw [hpr]
      simp [delete, hpe']
  · intro ha hpw hu hg hs ho
    simp only [processRecord, ha, reduceIte]
    unfold create
    rw [show firstEmpty
          [("username", row.username), ("givenName", row.givenName),
           ("sn", row.sn), ("ou", row.primO),
           ("userPassword", row.userPassword)] =
        some "userPassword" from by
      simp [firstEmpty, hu, hg, hs, ho, hpw]]

/-- C2 witness for the amended claim: a create record with an empty
password aborts with the exact userPassword message and no tool
invocation. -/
theorem missing_field_aborts_witness :
    (∃ p ∈ handlerParams recNoPassword, p.2 = "" ∧
      processRecord toolAllFail hashDemo "_" recNoPassword initState =
        (Except.ok (missingMsg p.1), initState)) ∧
    processRecord toolAllFail hashDemo "_" recNoPassword initState =
      (Except.ok (missingMsg "userPassword"), initState) := by
  have H := missing_field_aborts toolAllFail hashDemo "_" recNoPassword
    initState (Or.inl rfl) ⟨("userPassword", ""), by decide, rfl⟩
  exact ⟨H.1, H.2 rfl rfl (by decide) (by decide) (by decide)
    (by decide)⟩

/-- C1: the claim that every result string written to the report row
begins with "SUCCESS:" or "ERROR:" fails on the create handler
reactivation branch: for an existing suspended user whose unsuspend
command succeeds, the dispatcher returns the misspelled
"SUCCES: User unsuspended in GApps." (gammy.py line 217), which carries
neither prefix, contradicting the output contract of the module
docstring (result ERROR/SUCCESS: reason). -/
theorem reactivation_result_prefix_bug :
    (processRecord toolSuspProbe hashDemo "_" recReactivate
        initState).1 =
      Except.ok "SUCCES: User unsuspended in GApps." ∧
    pyStartsWith "SUCCES: User unsuspended in GApps." "SUCCESS:" =
      false ∧
    pyStartsWith "SUCCES: User unsuspended in GApps." "ERROR:" =
      false := by
  exact ⟨rfl, by decide, by decide⟩

end Gammy
